import Mathlib

/-!
# Verification of the Motors supervisory control loop (src/Motors/src/Motors.cpp)

Shallow embedding of the watchdog supervisor, the kinematics translation in
`setVelocity`, the `initMotors` / `killMotors` sequences and the
`receiverControl` fault-monitor body.  IEEE doubles are idealised as exact
rationals (`ℚ`); the hardware (the external `motorController` driver) is
abstracted as an oracle assigning a boolean result to every issued call, so
the embedded functions return, besides their boolean result, the trace of
hardware calls they issue and the list of log events they emit.
-/

namespace Motors

/-- Configuration constants from the (not included) `Motors.h` header:
top speed, geometry and calibration constants, and the channel index of each
wheel (`m[0]` is constructed at `RIGHT_MOTOR_LOCATION`, `m[1]` at
`LEFT_MOTOR_LOCATION`, so the channel-to-side assignment is configuration).
Values are unknown, so they are parameters of the development. -/
structure Config where
  TOPSPEED : ℚ
  ENCODER_RESOLUTION : ℚ
  GEARRATIO : ℚ
  WHEEL_RADIUS : ℚ
  ROBOT_RADIUS : ℚ
  LEFT_MOTOR_WARP : ℚ
  RIGHT_MOTOR_WARP : ℚ
  LEFT_MOTOR_CHANNEL : Fin 2
  RIGHT_MOTOR_CHANNEL : Fin 2
deriving DecidableEq

/-- The `M_PI` constant of `math.h`, idealised as the exact rational value of
its decimal literal. -/
def M_PI : ℚ := 3.14159265358979323846

/-- One hardware call issued to a motor channel (index `i` into `m[]`).
These are the operations of the external `motorController` capability that
`Motors.cpp` invokes. -/
inductive Call where
  | stopMotor (i : Fin 2)
  | setMode (i : Fin 2) (mode : ℤ)
  | setEncoder (i : Fin 2) (value : ℤ)
  | toggleMotor (i : Fin 2) (enable : Bool)
  | setVel (i : Fin 2) (v : ℚ)
deriving DecidableEq

/-- The hardware oracle: the boolean result every issued call would report.
(`!=1` checks in the source are modelled as the oracle returning `false`.) -/
abbrev Oracle : Type := Call → Bool

/-- Log events emitted by `Motors.cpp`, one constructor per `ROS_*` call site,
tagged with its level as in the source. -/
inductive LogEvent where
  | infoCmd (linear angular : ℚ)      -- ROS_INFO("\nlinear %f\nangular %f", ...)
  | errorGoSlower                     -- ROS_ERROR("GO SLOWER!")
  | infoVel (left right : ℚ)          -- ROS_INFO("\nleft-velocity: ...")
  | errorSetVelocity                  -- ROS_ERROR("Motors failed to setVelocity!")
  | infoFailMotor (i : Fin 2)         -- ROS_INFO("FAIL MOTOR%d\n", i)
  | errorInitFail                     -- ROS_ERROR("Motors failed to initialize!")
  | warnWatchdog                      -- ROS_WARN("Watchdog timed out!")
deriving DecidableEq

/-! ## Kinematics (`setVelocity`, Motors.cpp lines 163-199) -/

/-- `MPS2TPS = ENCODER_RESOLUTION * GEARRATIO/(2*WHEEL_RADIUS*M_PI)`
(Motors.cpp line 181). -/
def MPS2TPS (cfg : Config) : ℚ :=
  cfg.ENCODER_RESOLUTION * cfg.GEARRATIO / (2 * cfg.WHEEL_RADIUS * M_PI)

/-- `TURNOFFSET = MPS2TPS * ROBOT_RADIUS` (Motors.cpp line 183). -/
def TURNOFFSET (cfg : Config) : ℚ := MPS2TPS cfg * cfg.ROBOT_RADIUS

/-- The overspeed clamp (Motors.cpp lines 171-179): if `|linear| > TOPSPEED`
both `linear` and `angular` are replaced by `0`. -/
def clampCmd (cfg : Config) (linear angular : ℚ) : ℚ × ℚ :=
  if |linear| > cfg.TOPSPEED then (0, 0) else (linear, angular)

/-- `left_velocity = ((linear * MPS2TPS) - (TURNOFFSET * angular)) * LEFT_MOTOR_WARP`
(Motors.cpp line 185), applied to the already-clamped command. -/
def left_velocity (cfg : Config) (linear angular : ℚ) : ℚ :=
  (linear * MPS2TPS cfg - TURNOFFSET cfg * angular) * cfg.LEFT_MOTOR_WARP

/-- `right_velocity = ((linear * MPS2TPS) + (TURNOFFSET * angular)) * RIGHT_MOTOR_WARP`
(Motors.cpp line 186), applied to the already-clamped command. -/
def right_velocity (cfg : Config) (linear angular : ℚ) : ℚ :=
  (linear * MPS2TPS cfg + TURNOFFSET cfg * angular) * cfg.RIGHT_MOTOR_WARP

/-- The effective `WheelCommand` of one `setVelocity` invocation: clamp, then
translate each component. -/
def wheelCommand (cfg : Config) (linear angular : ℚ) : ℚ × ℚ :=
  let c := clampCmd cfg linear angular
  (left_velocity cfg c.1 c.2, right_velocity cfg c.1 c.2)

/-- Embedding of `setVelocity` (Motors.cpp lines 163-199): returns the boolean
`success`, the trace of hardware calls issued, and the emitted log events. -/
def setVelocity (cfg : Config) (hw : Oracle) (linear angular : ℚ) :
    Bool × List Call × List LogEvent :=
  let clamped := clampCmd cfg linear angular
  let clampLog : List LogEvent :=
    if |linear| > cfg.TOPSPEED then [LogEvent.errorGoSlower] else []
  let lv := left_velocity cfg clamped.1 clamped.2
  let rv := right_velocity cfg clamped.1 clamped.2
  let calls : List Call :=
    [Call.setVel cfg.LEFT_MOTOR_CHANNEL lv, Call.setVel cfg.RIGHT_MOTOR_CHANNEL rv]
  let success := hw (Call.setVel cfg.LEFT_MOTOR_CHANNEL lv) &&
                 hw (Call.setVel cfg.RIGHT_MOTOR_CHANNEL rv)
  let failLog : List LogEvent :=
    if success = false then [LogEvent.errorSetVelocity] else []
  (success,
   calls,
   LogEvent.infoCmd linear angular :: clampLog ++ [LogEvent.infoVel lv rv] ++ failLog)

/-! ## `initMotors` (Motors.cpp lines 201-220) -/

/-- The four init calls issued to channel `i`, in source order:
stop, `setMode(5)`, `setEncoder(0)`, `toggleMotor(true)`. -/
def initChannelCalls (i : Fin 2) : List Call :=
  [Call.stopMotor i, Call.setMode i 5, Call.setEncoder i 0, Call.toggleMotor i true]

/-- One iteration of the `initMotors` loop body for channel `i`, threading the
accumulated `success` flag.  Every call is issued unconditionally (the source
only inspects the results); `ROS_INFO("FAIL MOTOR%d")` fires when the
accumulated flag is false after the channel's four steps. -/
def initChannelStep (hw : Oracle) (i : Fin 2) (success : Bool) :
    Bool × List LogEvent :=
  let s := success && hw (Call.stopMotor i)
  let s := s && hw (Call.setMode i 5)
  let s := s && hw (Call.setEncoder i 0)
  let s := s && hw (Call.toggleMotor i true)
  (s, if s = false then [LogEvent.infoFailMotor i] else [])

/-- Embedding of `initMotors` (Motors.cpp lines 201-220): issues all four init
steps on both channels with no early abort and returns the accumulated AND of
all results, the full call trace and the log events. -/
def initMotors (hw : Oracle) : Bool × List Call × List LogEvent :=
  let r0 := initChannelStep hw 0 true
  let r1 := initChannelStep hw 1 r0.1
  let success := r1.1
  (success,
   initChannelCalls 0 ++ initChannelCalls 1,
   r0.2 ++ r1.2 ++ if success = false then [LogEvent.errorInitFail] else [])

/-! ## `killMotors` (Motors.cpp lines 222-233) -/

/-- The kill-sequence call trace: stop then disable on each channel, in source
order.  `killMotors` emits no log events. -/
def killCalls : List Call :=
  [Call.stopMotor 0, Call.toggleMotor 0 false,
   Call.stopMotor 1, Call.toggleMotor 1 false]

/-- Embedding of `killMotors` (Motors.cpp lines 222-233): issues stop then
`toggleMotor(false)` on both channels, no early abort, returns the AND of all
results.  It logs nothing. -/
def killMotors (hw : Oracle) : Bool × List Call :=
  (((hw (Call.stopMotor 0) && hw (Call.toggleMotor 0 false)) &&
     hw (Call.stopMotor 1)) && hw (Call.toggleMotor 1 false),
   killCalls)

/-! ## The watchdog supervisor loop body (Motors.cpp lines 102-128) -/

/-- Result of one iteration of the supervisor `while` loop: the value of
`g_motors_enabled` afterwards, the hardware calls issued and the logs
emitted during the iteration. -/
structure StepResult where
  enabled : Bool
  calls : List Call
  logs : List LogEvent
deriving DecidableEq

/-- Embedding of one iteration of the supervisor loop (Motors.cpp lines
102-128).  `enabled` is `g_motors_enabled` at the start of the iteration;
`cmdArrived` is the value of `g_watchdog_tripped` after the blocking
`callAvailable` wait (true iff a command arrived within `WATCHDOG_TIMEOUT`);
`linear`/`angular` are the stored command.  On timeout the loop warns, runs
`killMotors` (result discarded) and clears the flag; otherwise it re-runs
`initMotors` when disabled and then calls `setVelocity` (result discarded). -/
def superviseStep (cfg : Config) (hw : Oracle) (enabled : Bool)
    (cmdArrived : Bool) (linear angular : ℚ) : StepResult :=
  if cmdArrived = false then
    { enabled := false
      calls := (killMotors hw).2
      logs := [LogEvent.warnWatchdog] }
  else
    let ini := if enabled = false then initMotors hw else (enabled, [], [])
    let vel := setVelocity cfg hw linear angular
    { enabled := ini.1
      calls := ini.2.1 ++ vel.2.1
      logs := ini.2.2 ++ vel.2.2 }

/-! ## The fault monitor (`receiverControl`, Motors.cpp lines 133-152) -/

/-- The global shared state of `Motors.cpp` (the four globals of lines
35-38). -/
structure SharedState where
  watchdog_tripped : Bool
  motors_enabled : Bool
  linear_velocity : ℚ
  angular_velocity : ℚ
deriving DecidableEq

/-- `strstr(buf, needle) != NULL`: the needle occurs as a contiguous substring
of the buffer (buffers modelled as lists of characters). -/
def strstrFound (buf needle : List Char) : Bool :=
  match buf with
  | [] => needle.isPrefixOf ([] : List Char)
  | _ :: rest => needle.isPrefixOf buf || strstrFound rest needle

/-- One iteration of the `receiverControl` loop body (Motors.cpp lines
138-149) after the blocking `readSerial` produced `buf`: if the buffer
contains `"a?"` (estop report) or `":?"` (command sent to OFF motor), set
`g_motors_enabled` to false; nothing else is touched. -/
def receiverStep (st : SharedState) (buf : List Char) : SharedState :=
  let st1 := if strstrFound buf ['a', '?']
             then { st with motors_enabled := false } else st
  if strstrFound buf [':', '?']
  then { st1 with motors_enabled := false } else st1

/-! ## Spec-side kinematics (refinement reference for claim C5)

These definitions are written from the specification's words (§4.1
Conversion), to be compared with the embedding of the source above. -/

/-- Spec formula: `metersPerSecondToTicksPerSecond =
encoderResolution * gearRatio / (2 * wheelRadius * π)`. -/
def spec_mps2tps (cfg : Config) : ℚ :=
  cfg.ENCODER_RESOLUTION * cfg.GEARRATIO / (2 * cfg.WHEEL_RADIUS * M_PI)

/-- Spec formula: `turnOffset = metersPerSecondToTicksPerSecond * robotRadius`. -/
def spec_turnOffset (cfg : Config) : ℚ := spec_mps2tps cfg * cfg.ROBOT_RADIUS

/-- Spec formula: `leftVelocity =
(linear * metersPerSecondToTicksPerSecond - turnOffset * angular) * leftWarp`. -/
def spec_leftVelocity (cfg : Config) (linear angular : ℚ) : ℚ :=
  (linear * spec_mps2tps cfg - spec_turnOffset cfg * angular) * cfg.LEFT_MOTOR_WARP

/-- Spec formula: `rightVelocity =
(linear * metersPerSecondToTicksPerSecond + turnOffset * angular) * rightWarp`. -/
def spec_rightVelocity (cfg : Config) (linear angular : ℚ) : ℚ :=
  (linear * spec_mps2tps cfg + spec_turnOffset cfg * angular) * cfg.RIGHT_MOTOR_WARP

/-- A concrete example configuration used by witnesses (warp factors ±1 and
distinct channel indices, as §3 of the spec requires). -/
def cfgEx : Config :=
  { TOPSPEED := 2
    ENCODER_RESOLUTION := 2048
    GEARRATIO := 20
    WHEEL_RADIUS := 1/4
    ROBOT_RADIUS := 1/2
    LEFT_MOTOR_WARP := -1
    RIGHT_MOTOR_WARP := 1
    LEFT_MOTOR_CHANNEL := 1
    RIGHT_MOTOR_CHANNEL := 0 }

/-! ## Claims about the kinematics translator -/

/-- Claim C2: for every input with `|linear| > topSpeed`, regardless of
`angular`, the translator's effective output equals its output for `(0, 0)`:
the wheel command equals the one for input `(0, 0)`, both wheel velocities are
`0`, the velocities actually sent to the channels are those of input `(0, 0)`,
and the overspeed diagnostic is raised. -/
theorem C2_overspeed_full_stop (cfg : Config) (hw : Oracle) (lin ang : ℚ)
    (h : |lin| > cfg.TOPSPEED) :
    wheelCommand cfg lin ang = wheelCommand cfg 0 0 ∧
    wheelCommand cfg lin ang = (0, 0) ∧
    (setVelocity cfg hw lin ang).2.1 = (setVelocity cfg hw 0 0).2.1 ∧
    LogEvent.errorGoSlower ∈ (setVelocity cfg hw lin ang).2.2 := by
  have hc : clampCmd cfg lin ang = (0, 0) := by simp [clampCmd, h]
  have hc0 : clampCmd cfg 0 0 = (0, 0) := by
    unfold clampCmd; split <;> rfl
  refine ⟨?_, ?_, ?_, ?_⟩
  · simp [wheelCommand, hc, hc0]
  · simp [wheelCommand, hc, left_velocity, right_velocity]
  · simp [setVelocity, hc, hc0]
  · simp [setVelocity, h]

/-- Witness for C2 at a concrete overspeeding input. -/
theorem C2_overspeed_full_stop_witness :
    |(3 : ℚ)| > cfgEx.TOPSPEED ∧
    (wheelCommand cfgEx 3 1 = wheelCommand cfgEx 0 0 ∧
     wheelCommand cfgEx 3 1 = (0, 0) ∧
     (setVelocity cfgEx (fun _ => true) 3 1).2.1 =
       (setVelocity cfgEx (fun _ => true) 0 0).2.1 ∧
     LogEvent.errorGoSlower ∈ (setVelocity cfgEx (fun _ => true) 3 1).2.2) :=
  ⟨by decide, C2_overspeed_full_stop cfgEx (fun _ => true) 3 1 (by decide)⟩

/-- Claim C5: for every in-limit input (`|linear| ≤ topSpeed`) the translator
outputs exactly the spec's `leftVelocity`/`rightVelocity` formulas, with
`metersPerSecondToTicksPerSecond = encoderResolution * gearRatio /
(2 * wheelRadius * π)` and `turnOffset = metersPerSecondToTicksPerSecond *
robotRadius`. -/
theorem C5_in_limit_formula (cfg : Config) (lin ang : ℚ)
    (h : |lin| ≤ cfg.TOPSPEED) :
    wheelCommand cfg lin ang =
      (spec_leftVelocity cfg lin ang, spec_rightVelocity cfg lin ang) := by
  have hc : clampCmd cfg lin ang = (lin, ang) := by
    simp [clampCmd, not_lt.mpr h]
  simp [wheelCommand, hc, left_velocity, right_velocity,
        spec_leftVelocity, spec_rightVelocity, spec_mps2tps, spec_turnOffset,
        MPS2TPS, TURNOFFSET]

/-- Witness for C5 at a concrete in-limit input. -/
theorem C5_in_limit_formula_witness :
    |(1 : ℚ)| ≤ cfgEx.TOPSPEED ∧
    wheelCommand cfgEx 1 3 =
      (spec_leftVelocity cfgEx 1 3, spec_rightVelocity cfgEx 1 3) :=
  ⟨by decide, C5_in_limit_formula cfgEx 1 3 (by decide)⟩

/-- Claim C8: for every in-limit input the translated wheel velocities are
linear functions of `(linear, angular)` (exhibited by explicit coefficients),
and for `angular = 0` the two wheel velocities agree up to warp-factor
scaling: `leftVelocity / leftWarp = rightVelocity / rightWarp`. -/
theorem C8_linearity_and_straight_line (cfg : Config) (lin ang : ℚ)
    (h : |lin| ≤ cfg.TOPSPEED) :
    (wheelCommand cfg lin ang).1 =
      (MPS2TPS cfg * cfg.LEFT_MOTOR_WARP) * lin +
        (-(TURNOFFSET cfg * cfg.LEFT_MOTOR_WARP)) * ang ∧
    (wheelCommand cfg lin ang).2 =
      (MPS2TPS cfg * cfg.RIGHT_MOTOR_WARP) * lin +
        (TURNOFFSET cfg * cfg.RIGHT_MOTOR_WARP) * ang ∧
    (cfg.LEFT_MOTOR_WARP ≠ 0 → cfg.RIGHT_MOTOR_WARP ≠ 0 →
      (wheelCommand cfg lin 0).1 / cfg.LEFT_MOTOR_WARP =
        (wheelCommand cfg lin 0).2 / cfg.RIGHT_MOTOR_WARP) := by
  have hc : clampCmd cfg lin ang = (lin, ang) := by
    simp [clampCmd, not_lt.mpr h]
  have hc0 : clampCmd cfg lin 0 = (lin, 0) := by
    simp [clampCmd, not_lt.mpr h]
  refine ⟨?_, ?_, ?_⟩
  · simp only [wheelCommand, hc, left_velocity]
    ring
  · simp only [wheelCommand, hc, right_velocity]
    ring
  · intro hL hR
    simp only [wheelCommand, hc0, left_velocity, right_velocity,
               mul_zero, sub_zero, add_zero]
    rw [mul_div_assoc, mul_div_assoc, div_self hL, div_self hR]

/-- Witness for C8 at a concrete in-limit input with nonzero warp factors. -/
theorem C8_linearity_and_straight_line_witness :
    |(1 : ℚ)| ≤ cfgEx.TOPSPEED ∧
    ((wheelCommand cfgEx 1 3).1 =
      (MPS2TPS cfgEx * cfgEx.LEFT_MOTOR_WARP) * 1 +
        (-(TURNOFFSET cfgEx * cfgEx.LEFT_MOTOR_WARP)) * 3 ∧
     (wheelCommand cfgEx 1 3).2 =
      (MPS2TPS cfgEx * cfgEx.RIGHT_MOTOR_WARP) * 1 +
        (TURNOFFSET cfgEx * cfgEx.RIGHT_MOTOR_WARP) * 3 ∧
     (cfgEx.LEFT_MOTOR_WARP ≠ 0 → cfgEx.RIGHT_MOTOR_WARP ≠ 0 →
       (wheelCommand cfgEx 1 0).1 / cfgEx.LEFT_MOTOR_WARP =
         (wheelCommand cfgEx 1 0).2 / cfgEx.RIGHT_MOTOR_WARP)) :=
  ⟨by decide, C8_linearity_and_straight_line cfgEx 1 3 (by decide)⟩

/-! ## Claims about the supervisor loop, initMotors and killMotors -/

/-- Claim C3: in every supervisor iteration in which no command arrived within
the watchdog timeout, the iteration logs exactly the watchdog warning, issues
exactly the kill sequence (stop then disable, on both channels, in order),
ends with `g_motors_enabled = false`, and issues no `setVelocity` call. -/
theorem C3_watchdog_timeout_branch (cfg : Config) (hw : Oracle)
    (enabled : Bool) (lin ang : ℚ) :
    superviseStep cfg hw enabled false lin ang =
      { enabled := false, calls := killCalls, logs := [LogEvent.warnWatchdog] } ∧
    killCalls = [Call.stopMotor 0, Call.toggleMotor 0 false,
                 Call.stopMotor 1, Call.toggleMotor 1 false] ∧
    ∀ i v, Call.setVel i v ∉ (superviseStep cfg hw enabled false lin ang).calls := by
  refine ⟨rfl, rfl, ?_⟩
  intro i v
  simp [superviseStep, killMotors, killCalls]

/-- Claim C10: in a watchdog-timeout iteration the whole iteration result is
independent of the hardware's answers — the boolean returned by `killMotors`
is discarded — so `g_motors_enabled` ends `false` and only the watchdog
warning is logged even when the kill sequence reports failure (as it does,
for instance, under the all-failing oracle). -/
theorem C10_kill_result_discarded (cfg : Config) (hw hw2 : Oracle)
    (enabled : Bool) (lin ang : ℚ) :
    superviseStep cfg hw enabled false lin ang =
      superviseStep cfg hw2 enabled false lin ang ∧
    (superviseStep cfg hw enabled false lin ang).enabled = false ∧
    (superviseStep cfg hw enabled false lin ang).logs = [LogEvent.warnWatchdog] ∧
    (killMotors (fun _ => false)).1 = false :=
  ⟨rfl, rfl, rfl, rfl⟩

/-- Claim C6: `initMotors` issues, for each channel in order, stop, set mode,
zero encoder, enable — all eight calls always, with no early abort — and
returns the AND of all eight results; in particular the second channel's
`setEncoder` failing alone makes it return failure. -/
theorem C6_initMotors_all_steps_and (hw : Oracle) :
    (initMotors hw).2.1 =
      [Call.stopMotor 0, Call.setMode 0 5, Call.setEncoder 0 0,
       Call.toggleMotor 0 true,
       Call.stopMotor 1, Call.setMode 1 5, Call.setEncoder 1 0,
       Call.toggleMotor 1 true] ∧
    (initMotors hw).1 =
      (hw (Call.stopMotor 0) && hw (Call.setMode 0 5) &&
       hw (Call.setEncoder 0 0) && hw (Call.toggleMotor 0 true) &&
       hw (Call.stopMotor 1) && hw (Call.setMode 1 5) &&
       hw (Call.setEncoder 1 0) && hw (Call.toggleMotor 1 true)) ∧
    (hw (Call.setEncoder 1 0) = false → (initMotors hw).1 = false) := by
  refine ⟨rfl, rfl, ?_⟩
  intro h
  simp [initMotors, initChannelStep, h]

/-- Oracle on which every call succeeds except the second channel's
`setEncoder` (Scenario D of the spec). -/
def hwEncFail : Oracle := fun c => !(decide (c = Call.setEncoder 1 0))

/-- Witness for C6: under `hwEncFail`, all eight init calls are still issued
and `initMotors` returns failure. -/
theorem C6_initMotors_all_steps_and_witness :
    hwEncFail (Call.setEncoder 1 0) = false ∧
    (initMotors hwEncFail).1 = false ∧
    (initMotors hwEncFail).2.1 =
      [Call.stopMotor 0, Call.setMode 0 5, Call.setEncoder 0 0,
       Call.toggleMotor 0 true,
       Call.stopMotor 1, Call.setMode 1 5, Call.setEncoder 1 0,
       Call.toggleMotor 1 true] :=
  ⟨by decide,
   (C6_initMotors_all_steps_and hwEncFail).2.2 (by decide),
   (C6_initMotors_all_steps_and hwEncFail).1⟩

/-- Claim C7: with motors enabled and a command arrived, the iteration ends
with `g_motors_enabled` still `true` whatever the hardware answers — in
particular a `setVelocity` failure never flips it — and such a failure is
logged as an error within the iteration. -/
theorem C7_setVelocity_failure_absorbed (cfg : Config) (hw : Oracle)
    (lin ang : ℚ) :
    (superviseStep cfg hw true true lin ang).enabled = true ∧
    ((setVelocity cfg hw lin ang).1 = false →
      LogEvent.errorSetVelocity ∈ (superviseStep cfg hw true true lin ang).logs) := by
  constructor
  · rfl
  · intro h
    simp only [superviseStep, reduceIte, List.nil_append]
    simp only [setVelocity] at h ⊢
    simp [h]

/-- Witness for C7: under the all-failing oracle, `setVelocity` fails, yet
the iteration keeps the motors enabled and logs the error. -/
theorem C7_setVelocity_failure_absorbed_witness :
    (superviseStep cfgEx (fun _ => false) true true 1 0).enabled = true ∧
    LogEvent.errorSetVelocity ∈
      (superviseStep cfgEx (fun _ => false) true true 1 0).logs :=
  ⟨(C7_setVelocity_failure_absorbed cfgEx (fun _ => false) 1 0).1,
   (C7_setVelocity_failure_absorbed cfgEx (fun _ => false) 1 0).2 (by decide)⟩

/-- Claim C1 (divergence of the code from the claim): in a supervisor
iteration where a command arrived while motors are disabled and
re-initialization fails on every hardware call, the velocity-application
calls to both (distinct) motor channels are nevertheless issued — the
command branch calls `setVelocity` unconditionally after `initMotors`, with
only the enabled flag recording the failure. -/
theorem C1_velocity_applied_despite_failed_reinit :
    (initMotors (fun _ => false)).1 = false ∧
    (superviseStep cfgEx (fun _ => false) false true 1 0).enabled = false ∧
    Call.setVel cfgEx.LEFT_MOTOR_CHANNEL (left_velocity cfgEx 1 0) ∈
      (superviseStep cfgEx (fun _ => false) false true 1 0).calls ∧
    Call.setVel cfgEx.RIGHT_MOTOR_CHANNEL (right_velocity cfgEx 1 0) ∈
      (superviseStep cfgEx (fun _ => false) false true 1 0).calls ∧
    cfgEx.LEFT_MOTOR_CHANNEL ≠ cfgEx.RIGHT_MOTOR_CHANNEL := by
  refine ⟨rfl, rfl, ?_, ?_, by decide⟩
  · have hc : clampCmd cfgEx 1 0 = (1, 0) := by decide
    simp [superviseStep, setVelocity, hc, initMotors, initChannelStep,
          initChannelCalls]
  · have hc : clampCmd cfgEx 1 0 = (1, 0) := by decide
    simp [superviseStep, setVelocity, hc, initMotors, initChannelStep,
          initChannelCalls]

/-! ## Claim C4: the fault monitor -/

/-- Claim C4: one `receiverControl` step sets `g_motors_enabled` to false
when the read buffer contains `"a?"` or `":?"`, leaves the whole shared state
unchanged otherwise, never turns the flag on, and never touches any other
shared variable. -/
theorem C4_fault_monitor_marker_only (st : SharedState) (buf : List Char) :
    ((strstrFound buf ['a', '?'] = true ∨ strstrFound buf [':', '?'] = true) →
      (receiverStep st buf).motors_enabled = false) ∧
    ((strstrFound buf ['a', '?'] = false ∧ strstrFound buf [':', '?'] = false) →
      receiverStep st buf = st) ∧
    ((receiverStep st buf).motors_enabled = true → st.motors_enabled = true) ∧
    (receiverStep st buf).watchdog_tripped = st.watchdog_tripped ∧
    (receiverStep st buf).linear_velocity = st.linear_velocity ∧
    (receiverStep st buf).angular_velocity = st.angular_velocity := by
  cases h1 : strstrFound buf ['a', '?'] <;>
    cases h2 : strstrFound buf [':', '?'] <;>
      simp [receiverStep, h1, h2]

/-- Example shared state for the C4 witness. -/
def stEx : SharedState :=
  { watchdog_tripped := true
    motors_enabled := true
    linear_velocity := 1
    angular_velocity := 2 }

/-- Witness for C4: a buffer containing `"a?"` disables the motors; a buffer
with no marker leaves the state untouched. -/
theorem C4_fault_monitor_marker_only_witness :
    (receiverStep stEx ['x', 'a', '?']).motors_enabled = false ∧
    receiverStep stEx ['x', 'b'] = stEx :=
  ⟨(C4_fault_monitor_marker_only stEx ['x', 'a', '?']).1 (Or.inl (by decide)),
   (C4_fault_monitor_marker_only stEx ['x', 'b']).2.1 ⟨by decide, by decide⟩⟩

/-! ## Claim C9: idempotence of the kill sequence

The motor-channel driver (`drivers/motorController.h`) is not under `src/`,
so the channel's reaction to the kill sequence is modelled from the spec's
channel state machine (§4.2). -/

/-- Motor channel states, from the spec §4.2. -/
inductive ChState where
  | uninitialized
  | stopped
  | running
  | faulted
deriving DecidableEq

/-- Modelled from the spec: `stopMotor()` of the external motor channel
(`drivers/motorController.h` is missing from src/).  A stop drives the
channel to `Stopped` — the safe, de-energized target of the kill sequence —
and reports success even on an already-stopped channel (§8: "no error
escalation on the second call even if channels are already stopped"). -/
def stopMotorM (_s : ChState) : ChState × Bool := (ChState.stopped, true)

/-- Modelled from the spec: `toggleMotor(false)` (disable actuation) of the
external motor channel.  Disabling keeps a stopped channel `Stopped` and
reports success. -/
def toggleOffM (_s : ChState) : ChState × Bool := (ChState.stopped, true)

/-- The kill sequence on one channel over the spec-modelled driver: stop,
then disable, results ANDed (Motors.cpp lines 226-230). -/
def killChannelM (s : ChState) : ChState × Bool :=
  let r1 := stopMotorM s
  let r2 := toggleOffM r1.1
  (r2.1, r1.2 && r2.2)

/-- The kill sequence across both channels over the spec-modelled driver,
mirroring the `killMotors` loop. -/
def killMotorsM (s : ChState × ChState) : (ChState × ChState) × Bool :=
  let r0 := killChannelM s.1
  let r1 := killChannelM s.2
  ((r0.1, r1.1), r0.2 && r1.2)

/-- Claim C9: the kill sequence is idempotent — a second invocation leaves
the channel states exactly where the first one put them (both `Stopped`) and
reports success; the issued call trace is the same fixed stop-then-disable
pair per channel on every invocation regardless of the hardware's answers;
and two successive watchdog-timeout iterations each end disabled, each
logging only the watchdog warning (no error escalation). -/
theorem C9_kill_idempotent (cfg : Config) (hw hw2 : Oracle)
    (s : ChState × ChState) (enabled enabled2 : Bool) (lin ang : ℚ) :
    killMotorsM s = ((ChState.stopped, ChState.stopped), true) ∧
    killMotorsM (killMotorsM s).1 = killMotorsM s ∧
    (killMotorsM (killMotorsM s).1).2 = true ∧
    (killMotors hw).2 = killCalls ∧
    (killMotors hw2).2 = killCalls ∧
    (superviseStep cfg hw enabled false lin ang).enabled = false ∧
    (superviseStep cfg hw2 enabled2 false lin ang).enabled = false ∧
    (superviseStep cfg hw enabled false lin ang).logs = [LogEvent.warnWatchdog] ∧
    (superviseStep cfg hw2 enabled2 false lin ang).logs = [LogEvent.warnWatchdog] :=
  ⟨rfl, rfl, rfl, rfl, rfl, rfl, rfl, rfl, rfl⟩

end Motors
